import Mathlib

/-!
Verification of the Digital_Library repository.

The Python sources `library_core.py`, `storage.py` and the order handlers of
`app.py` are embedded shallowly:
Python dicts become association lists kept in insertion order (a dict holds
each key at most once), Python ints become `Int`, Python floats carrying
prices become `ℚ`, `bytes` values become `List Nat`, and `None` becomes
`Option`.  Mutating methods become functions returning the new `Library`
together with the message the method returns.
-/

/-- A catalog item, from `Book.__init__` in `library_core.py`.  The field
order follows the attribute assignments of the constructor. -/
structure Book where
  title : String
  author : String
  book_id : String
  total_copies : Int
  available_copies : Int
  price : ℚ
  image_url : Option String
  image_bytes : Option (List Nat)
  image_mime : Option String
deriving DecidableEq

/-- A user record, from `User.__init__`. -/
structure User where
  name : String
  borrowed_books : List String
deriving DecidableEq

/-- One entry of `Library.borrow_records`. -/
structure BorrowRecord where
  user : String
  book_id : String
  title : String
deriving DecidableEq

/-- The `Library` aggregate of `library_core.py`.  The dicts `books` and
`users` are association lists in insertion order. -/
structure Library where
  name : String
  books : List (String × Book)
  users : List (String × User)
  borrow_records : List BorrowRecord
deriving DecidableEq

/-- Python dict lookup `m.get(k)` on an association list. -/
def dictGet {α : Type} (m : List (String × α)) (k : String) : Option α :=
  match m with
  | [] => none
  | p :: rest => if p.1 = k then some p.2 else dictGet rest k

/-- In-place mutation of the value stored under key `k`; a dict holds each
key at most once, so rewriting every pair whose key is `k` models it. -/
def mapAtKey {α : Type} (m : List (String × α)) (k : String) (f : α → α) :
    List (String × α) :=
  m.map (fun p => if p.1 = k then (p.1, f p.2) else p)

/-- Python truthiness of an optional string (used by `elif image_url:`):
false for `None` and for the empty string. -/
def strTruthy : Option String → Bool
  | none => false
  | some s => s != ""

/-- Python truthiness of an optional `bytes` value (`if self.image_bytes:`):
false for `None` and for empty bytes. -/
def bytesTruthy : Option (List Nat) → Bool
  | none => false
  | some l => !l.isEmpty

/-- The single-quote character as a string, for the messages the Python
f-strings build. -/
def squo : String := String.singleton (Char.ofNat 39)

/-- `Book.is_available`. -/
def Book.is_available (b : Book) : Bool := decide (0 < b.available_copies)

/-- `Library.get_or_create_user`. -/
def get_or_create_user (lib : Library) (user_name : String) : Library × User :=
  match dictGet lib.users user_name with
  | some u => (lib, u)
  | none =>
      let u : User := { name := user_name, borrowed_books := [] }
      ({ lib with users := lib.users ++ [(user_name, u)] }, u)

/-- The body of the existing-book branch of `Library.add_book`: overwrite
the metadata, set `total_copies`, recompute `available_copies` from the
previously sold or out units, and apply the cover priority upload over URL
over keep. -/
def add_book_update (title author : String) (total_copies : Int)
    (image_url : Option String) (image_bytes : Option (List Nat))
    (image_mime : Option String) (b : Book) : Book :=
  let sold_or_out := max 0 (b.total_copies - b.available_copies)
  let b1 := { b with title := title, author := author,
                     total_copies := total_copies }
  let av := min b1.total_copies (max 0 (b1.total_copies - sold_or_out))
  let b2 := { b1 with available_copies := av }
  match image_bytes with
  | some _ =>
      { b2 with image_bytes := image_bytes, image_mime := image_mime,
                image_url := none }
  | none =>
      if strTruthy image_url then
        { b2 with image_url := image_url, image_bytes := none,
                  image_mime := none }
      else b2

/-- `Library.add_book`: create on a fresh id, `add_book_update` on an
existing one. -/
def add_book (lib : Library) (title author book_id : String)
    (total_copies : Int) (image_url : Option String)
    (image_bytes : Option (List Nat)) (image_mime : Option String) :
    Library × String :=
  if total_copies ≤ 0 then (lib, "total_copies must be > 0.")
  else
    match dictGet lib.books book_id with
    | some _ =>
        let f := add_book_update title author total_copies image_url
          image_bytes image_mime
        ({ lib with books := mapAtKey lib.books book_id f },
         "Book updated (total copies set).")
    | none =>
        let nb : Book :=
          { title := title, author := author, book_id := book_id,
            total_copies := total_copies, available_copies := total_copies,
            price := 0, image_url := image_url, image_bytes := image_bytes,
            image_mime := image_mime }
        ({ lib with books := lib.books ++ [(book_id, nb)] },
         "Book added successfully.")

/-- The assignment `self.books[book_id].price = float(price)`. -/
def set_price_update (price : ℚ) (b : Book) : Book := { b with price := price }

/-- `Library.set_price`: no validation of the price value. -/
def set_price (lib : Library) (book_id : String) (price : ℚ) :
    Library × String :=
  match dictGet lib.books book_id with
  | none => (lib, "Book ID not found.")
  | some _ =>
      ({ lib with books := mapAtKey lib.books book_id (set_price_update price) },
       "Price updated.")

/-- The book mutation inside `Library.add_stock`: increase total and
available, available clamped at the new total. -/
def add_stock_update (qty : Int) (b : Book) : Book :=
  let t := b.total_copies + qty
  { b with total_copies := t,
           available_copies := min t (b.available_copies + qty) }

/-- `Library.add_stock`. -/
def add_stock (lib : Library) (book_id : String) (qty : Int) :
    Library × String :=
  if qty ≤ 0 then (lib, "qty must be > 0.")
  else
    match dictGet lib.books book_id with
    | none => (lib, "Book ID not found.")
    | some _ =>
        ({ lib with books := mapAtKey lib.books book_id (add_stock_update qty) },
         "Stock added.")

/-- `Library.can_purchase`: walk the lines in order and report the first
failing one. -/
def can_purchase (lib : Library) : List (String × Int) → Bool × String
  | [] => (true, "OK")
  | (bid, q) :: rest =>
      match dictGet lib.books bid with
      | none => (false, "Book ID not found: " ++ bid)
      | some b =>
          if q ≤ 0 then (false, "Qty must be > 0.")
          else if b.available_copies < q then
            (false, "Not enough stock for " ++ b.title ++ ".")
          else can_purchase lib rest

/-- The per-line loop shared by `purchase` and `restock`: apply `f` to the
book stored under each key of `items`.  A key absent from `books` is left
alone, which models both the `if bid in self.books` guard of `restock` and
the membership `can_purchase` has already established for `purchase`. -/
def updateLines (f : Int → Book → Book) (lib : Library)
    (items : List (String × Int)) : Library :=
  items.foldl (fun l p => { l with books := mapAtKey l.books p.1 (f p.2) }) lib

/-- The per-line decrement of `Library.purchase`: subtract and floor at
zero. -/
def purchase_update (q : Int) (b : Book) : Book :=
  { b with available_copies := max 0 (b.available_copies - q) }

/-- `Library.purchase`: check all lines first, then reduce stock. -/
def purchase (lib : Library) (items : List (String × Int)) :
    Library × Bool × String :=
  let c := can_purchase lib items
  if c.1 then (updateLines purchase_update lib items, true, "Purchased.")
  else (lib, false, c.2)

/-- The per-line increment of `Library.restock`: add back, clamped at
`total_copies`; the quantity is not validated. -/
def restock_update (q : Int) (b : Book) : Book :=
  { b with available_copies := min b.total_copies (b.available_copies + q) }

/-- `Library.restock`: add copies back for every line whose id exists;
absent ids are skipped silently. -/
def restock (lib : Library) (items : List (String × Int)) : Library × String :=
  (updateLines restock_update lib items, "Restocked.")

/-- The decrement `book.available_copies -= 1` of `Library.borrow_book`. -/
def borrow_update (b : Book) : Book :=
  { b with available_copies := b.available_copies - 1 }

/-- `Library.borrow_book`. -/
def borrow_book (lib : Library) (user_name book_id : String) :
    Library × String :=
  match dictGet lib.books book_id with
  | none => (lib, "Book ID not found.")
  | some book =>
      if !book.is_available then (lib, "No copies available.")
      else
        let lib1 := (get_or_create_user lib user_name).1
        let books2 := mapAtKey lib1.books book_id borrow_update
        let lib2 := { lib1 with books := books2 }
        let users2 := mapAtKey lib2.users user_name
          (fun u => { u with borrowed_books := u.borrowed_books ++ [book_id] })
        let lib3 := { lib2 with users := users2 }
        let rec2 : BorrowRecord :=
          { user := user_name, book_id := book_id, title := book.title }
        let lib4 := { lib3 with borrow_records := lib3.borrow_records ++ [rec2] }
        (lib4, user_name ++ " borrowed " ++ squo ++ book.title ++ squo ++
               " successfully.")

/-- `User.return_book`: drop the first occurrence of the id, report whether
it was there. -/
def User.return_book (u : User) (book_id : String) : Bool × User :=
  if book_id ∈ u.borrowed_books then
    (true, { u with borrowed_books := u.borrowed_books.erase book_id })
  else (false, u)

/-- Pop the first borrow record matching the user and the book, as the loop
at the end of `Library.return_book` does. -/
def removeFirstRecord : List BorrowRecord → String → String → List BorrowRecord
  | [], _, _ => []
  | r :: rest, u, bid =>
      if r.user = u ∧ r.book_id = bid then rest
      else r :: removeFirstRecord rest u bid

/-- The increment of `Library.return_book`: one copy back, clamped at
`total_copies`. -/
def return_update (b : Book) : Book :=
  { b with available_copies := min b.total_copies (b.available_copies + 1) }

/-- `Library.return_book`. -/
def return_book (lib : Library) (user_name book_id : String) :
    Library × String :=
  match dictGet lib.books book_id with
  | none => (lib, "Book ID not found in library.")
  | some book =>
      match dictGet lib.users user_name with
      | none => (lib, "User not found.")
      | some user =>
          let r := user.return_book book_id
          if !r.1 then (lib, "This user did not borrow this book.")
          else
            let users2 := mapAtKey lib.users user_name (fun _ => r.2)
            let lib1 := { lib with users := users2 }
            let books2 := mapAtKey lib1.books book_id return_update
            let lib2 := { lib1 with books := books2 }
            let recs2 := removeFirstRecord lib2.borrow_records user_name book_id
            let lib3 := { lib2 with borrow_records := recs2 }
            (lib3, user_name ++ " returned " ++ squo ++ book.title ++ squo ++
                   " successfully.")

/-- The serialized form of one book, as `Library.to_dict` writes it and
`Library.load_from_dict` reads it; the fields read back through `.get` are
optional. -/
structure BookDict where
  title : String
  author : String
  total_copies : Int
  available_copies : Option Int
  price : Option ℚ
  image_url : Option String
deriving DecidableEq

/-- `Library.to_dict`: serialize the books only; inline cover bytes and mime
are not written out. -/
def to_dict (lib : Library) : List (String × BookDict) :=
  lib.books.map (fun p =>
    (p.1, { title := p.2.title, author := p.2.author,
            total_copies := p.2.total_copies,
            available_copies := some p.2.available_copies,
            price := some p.2.price, image_url := p.2.image_url }))

/-- One step of `Library.load_from_dict`: `Book(...)` followed by the
`available_copies` fix-up.  `Book.__init__` raises `ValueError` on a
negative `total_copies`; that exceptional path is modelled as `none`. -/
def bookFromDict (bid : String) (d : BookDict) : Option Book :=
  if d.total_copies < 0 then none
  else some { title := d.title, author := d.author, book_id := bid,
              total_copies := d.total_copies,
              available_copies := d.available_copies.getD d.total_copies,
              price := d.price.getD 0, image_url := d.image_url,
              image_bytes := none, image_mime := none }

/-- `Library.load_from_dict`: rebuild `books` from the serialized data. -/
def load_from_dict (lib : Library) (data : List (String × BookDict)) :
    Option Library :=
  (data.mapM (fun p => (bookFromDict p.1 p.2).map (fun b => (p.1, b)))).map
    (fun bs => { lib with books := bs })

/-- An order record as `app.py` appends it to the ledger. -/
structure OrderRec where
  order_id : String
  time : String
  customer : String
  user_id : String
  items : List (String × Int)
  status : String
  total_usd : ℚ
  admin_note : String
deriving DecidableEq

/-- The durable blob of `storage.py`. -/
structure State where
  books : List (String × BookDict)
  orders : List OrderRec
deriving DecidableEq

/-- `storage.load_state`.  The file system is a parameter: `none` when
`DATA_FILE` does not exist, `some none` when the file exists but reading or
parsing it raises, `some (some s)` when it parses to state `s`. -/
def load_state (file : Option (Option State)) : State :=
  match file with
  | none => { books := [], orders := [] }
  | some none => { books := [], orders := [] }
  | some (some s) => s

/-- `storage.save_state`: the blob written to `DATA_FILE`. -/
def save_state (books_dict : List (String × BookDict))
    (orders_list : List OrderRec) : State :=
  { books := books_dict, orders := orders_list }

/-- `order_total` from `app.py`: sum price times quantity over the lines,
skipping ids absent from the catalog. -/
def order_total (lib : Library) (items : List (String × Int)) : ℚ :=
  items.foldl (fun total p =>
    match dictGet lib.books p.1 with
    | none => total
    | some b => total + b.price * (p.2 : ℚ)) 0

/-- Zero-padding of the order counter, as in the Python format `05d`. -/
def pad5 (n : Nat) : String :=
  let s := toString n
  String.mk (List.replicate (5 - s.length) '0') ++ s

/-- The confirm-order form handler of `app.py` (the operation the spec calls
`create_order`): total from the current catalog prices, `lib.purchase`, and
on success append the new order with status PENDING_PAYMENT.  `time` stands
for the formatted `datetime.now()`. -/
def create_order (lib : Library) (orders : List OrderRec)
    (customer user_id time : String) (items : List (String × Int)) :
    Library × List OrderRec × Bool × String :=
  let total := order_total lib items
  let r := purchase lib items
  if r.2.1 then
    (r.1,
     orders ++ [{ order_id := "ORD-" ++ pad5 (orders.length + 1),
                  time := time, customer := customer, user_id := user_id,
                  items := items, status := "PENDING_PAYMENT",
                  total_usd := total, admin_note := "" }],
     true, r.2.2)
  else (r.1, orders, false, r.2.2)

/-- The Cancel (Restock) button handler of `app.py` (the operation the spec
calls `cancel_and_restock`): set the status and restock the items of the
order at `idx`, with no check of the current status. -/
def cancel_and_restock (lib : Library) (orders : List OrderRec) (idx : Nat) :
    Library × List OrderRec :=
  match orders[idx]? with
  | none => (lib, orders)
  | some o =>
      ((restock lib o.items).1,
       orders.set idx { o with status := "CANCELLED (RESTOCKED)" })

/-- The stock invariant of one book. -/
def Bounded (b : Book) : Prop :=
  0 ≤ b.available_copies ∧ b.available_copies ≤ b.total_copies

/-- The catalog invariant: every stored book is `Bounded`. -/
def InvLib (lib : Library) : Prop := ∀ p ∈ lib.books, Bounded p.2

instance (b : Book) : Decidable (Bounded b) := by
  unfold Bounded; infer_instance

instance (lib : Library) : Decidable (InvLib lib) := by
  unfold InvLib; exact List.decidableBAll _ _

/-- A purchase line that passes all three checks of `can_purchase`. -/
def goodLine (lib : Library) (p : String × Int) : Prop :=
  ∃ b, dictGet lib.books p.1 = some b ∧ 0 < p.2 ∧ p.2 ≤ b.available_copies

/-- Executable form of `goodLine`. -/
def goodLineB (lib : Library) (p : String × Int) : Bool :=
  match dictGet lib.books p.1 with
  | none => false
  | some b => decide (0 < p.2) && decide (p.2 ≤ b.available_copies)

theorem goodLine_iff (lib : Library) (p : String × Int) :
    goodLine lib p ↔ goodLineB lib p = true := by
  unfold goodLine goodLineB
  cases h : dictGet lib.books p.1 with
  | none => simp
  | some b => simp

instance (lib : Library) (p : String × Int) : Decidable (goodLine lib p) :=
  decidable_of_iff _ (goodLine_iff lib p).symm

/-- At most one cover reference is active on `b`. -/
def coverOk (b : Book) : Prop :=
  bytesTruthy b.image_bytes = false ∨ strTruthy b.image_url = false

instance (b : Book) : Decidable (coverOk b) := by
  unfold coverOk; infer_instance

/-- The book a round trip through `to_dict` and `load_from_dict` produces
from the book stored under `bid`: the inline cover is dropped. -/
def roundtripBook (bid : String) (b : Book) : Book :=
  { b with book_id := bid, image_bytes := none, image_mime := none }

/-- The image of a whole catalog under the round trip. -/
def roundtripBooks (books : List (String × Book)) : List (String × Book) :=
  books.map (fun p => (p.1, roundtripBook p.1 p.2))

/-! ## Concrete states used by witnesses and counterexamples -/

def c1lib : Library :=
  ⟨"Digital Library",
   [(("b1"), ⟨"T", "A", "b1", 5, 2, 10, none, none, none⟩)], [], []⟩

def c2lib : Library :=
  ⟨"Digital Library",
   [(("b1"), ⟨"T", "A", "b1", 5, 5, 10, none, none, none⟩)], [], []⟩

def c3lib : Library :=
  ⟨"Digital Library",
   [(("b1"), ⟨"T", "A", "b1", 5, 2, 10, none, none, none⟩)], [], []⟩

def c3order : OrderRec :=
  ⟨"ORD-00001", "t0", "alice", "USR-00001", [(("b1"), 3)], "PAID", 30, ""⟩

/-- First press of Cancel (Restock) on the PAID order. -/
def c3s1 : Library × List OrderRec := cancel_and_restock c3lib [c3order] 0

/-- A later purchase reserves three copies again. -/
def c3s2 : Library × Bool × String := purchase c3s1.1 [(("b1"), 3)]

/-- Second press of Cancel (Restock) on the same, already cancelled,
order. -/
def c3s3 : Library × List OrderRec := cancel_and_restock c3s2.1 c3s1.2 0

def c4lib : Library :=
  ⟨"Digital Library",
   [(("b1"), ⟨"T", "A", "b1", 5, 2, 0, none, none, none⟩)], [], []⟩

def c5lib : Library :=
  ⟨"Digital Library",
   [(("b1"), ⟨"T", "A", "b1", 5, 5, 10, none, none, none⟩)], [], []⟩

def c6lib : Library :=
  ⟨"Digital Library",
   [(("b1"), ⟨"T", "A", "b1", 3, 3, 5, none, some [7], some ("image/png")⟩)],
   [], []⟩

def c6wlib : Library :=
  ⟨"Digital Library",
   [(("b1"), ⟨"T", "A", "b1", 3, 2, 5, some ("http://x/y.png"), none, none⟩)],
   [], []⟩

def c6base : Library := ⟨"Digital Library", [], [], []⟩

def c7lib : Library :=
  ⟨"Digital Library",
   [(("b1"), ⟨"T", "A", "b1", 1, 1, 0, none, none, none⟩)], [], []⟩

def c8base : Library := ⟨"Digital Library", [], [], []⟩

def c10lib : Library :=
  ⟨"Digital Library",
   [(("b1"), ⟨"T", "A", "b1", 5, 2, 10, none, none, none⟩)], [], []⟩

/-! ## Lemmas about the association-list helpers -/

theorem dictGet_mapAtKey {α : Type} (m : List (String × α)) (k : String)
    (f : α → α) (id : String) :
    dictGet (mapAtKey m k f) id =
      if id = k then (dictGet m id).map f else dictGet m id := by
  induction m with
  | nil => by_cases h : id = k <;> simp [mapAtKey, dictGet, h]
  | cons p rest ih =>
      simp only [mapAtKey, List.map_cons] at ih ⊢
      by_cases hik : id = k
      · subst hik
        by_cases h3 : p.1 = id
        · simp [dictGet, h3]
        · simp [dictGet, h3, ih]
      · by_cases h3 : p.1 = id
        · have h2 : ¬ p.1 = k := fun hc => hik (h3.symm.trans hc)
          simp [dictGet, h3, h2, hik]
        · have hki : ¬ k = id := fun hc => hik hc.symm
          by_cases h2 : p.1 = k <;> simp [dictGet, h3, h2, ih, hik, hki]

theorem dictGet_mapAtKey_self {α : Type} (m : List (String × α)) (k : String)
    (f : α → α) : dictGet (mapAtKey m k f) k = (dictGet m k).map f := by
  simp [dictGet_mapAtKey]

theorem dictGet_mapAtKey_ne {α : Type} (m : List (String × α)) (k : String)
    (f : α → α) (id : String) (h : id ≠ k) :
    dictGet (mapAtKey m k f) id = dictGet m id := by
  simp [dictGet_mapAtKey, h]

theorem mem_of_dictGet {α : Type} (k : String) (v : α) :
    ∀ m : List (String × α), dictGet m k = some v → (k, v) ∈ m := by
  intro m
  induction m with
  | nil => intro h; simp [dictGet] at h
  | cons p rest ih =>
      intro h
      by_cases hp : p.1 = k
      · simp only [dictGet, if_pos hp, Option.some.injEq] at h
        have hkv : (k, v) = p := by rw [← hp, ← h]
        rw [hkv]
        exact List.mem_cons_self _ _
      · simp only [dictGet, if_neg hp] at h
        exact List.mem_cons_of_mem _ (ih h)

theorem dictGet_eq_of_mem {α : Type} (k : String) (v : α) :
    ∀ m : List (String × α), (m.map Prod.fst).Nodup → (k, v) ∈ m →
      dictGet m k = some v := by
  intro m
  induction m with
  | nil => intro _ hm; cases hm
  | cons p rest ih =>
      intro hk hm
      rw [List.map_cons, List.nodup_cons] at hk
      rcases List.mem_cons.mp hm with heq | htl
      · rw [← heq]
        simp [dictGet]
      · have hne : ¬ p.1 = k := by
          intro hc
          exact hk.1 (hc ▸ List.mem_map.mpr ⟨(k, v), htl, rfl⟩)
        simp only [dictGet, if_neg hne]
        exact ih hk.2 htl

theorem updateLines_cons (f : Int → Book → Book) (lib : Library)
    (p : String × Int) (rest : List (String × Int)) :
    updateLines f lib (p :: rest) =
      updateLines f { lib with books := mapAtKey lib.books p.1 (f p.2) } rest :=
  rfl

theorem dictGet_updateLines_notin (f : Int → Book → Book)
    (items : List (String × Int)) (bid : String)
    (h : bid ∉ items.map Prod.fst) :
    ∀ lib, dictGet (updateLines f lib items).books bid = dictGet lib.books bid := by
  induction items with
  | nil => intro lib; rfl
  | cons p rest ih =>
      intro lib
      simp only [List.map_cons, List.mem_cons, not_or] at h
      rw [updateLines_cons, ih h.2]
      exact dictGet_mapAtKey_ne _ _ _ _ h.1

theorem dictGet_updateLines_mem (f : Int → Book → Book)
    (items : List (String × Int)) (bid : String) (q : Int) :
    (items.map Prod.fst).Nodup → (bid, q) ∈ items →
    ∀ lib, dictGet (updateLines f lib items).books bid =
      (dictGet lib.books bid).map (f q) := by
  induction items with
  | nil => intro _ hm; cases hm
  | cons p rest ih =>
      intro hnd hmem lib
      rw [List.map_cons, List.nodup_cons] at hnd
      rw [updateLines_cons]
      rcases List.mem_cons.mp hmem with heq | htl
      · have hb : bid ∉ rest.map Prod.fst := by
          have h1 := hnd.1
          rw [← heq] at h1
          exact h1
        rw [dictGet_updateLines_notin f rest bid hb]
        rw [← heq]
        exact dictGet_mapAtKey_self _ _ _
      · have hne : bid ≠ p.1 := by
          intro hc
          exact hnd.1 (hc ▸ List.mem_map.mpr ⟨(bid, q), htl, rfl⟩)
        rw [ih hnd.2 htl]
        rw [dictGet_mapAtKey_ne _ _ _ _ hne]

/-! ## Characterising `can_purchase` -/

theorem can_purchase_eq_true_iff (lib : Library) (items : List (String × Int)) :
    (can_purchase lib items).1 = true ↔ ∀ p ∈ items, goodLine lib p := by
  induction items with
  | nil => simp [can_purchase]
  | cons p rest ih =>
      obtain ⟨bid, q⟩ := p
      rw [List.forall_mem_cons]
      cases h : dictGet lib.books bid with
      | none =>
          simp only [can_purchase, h]
          constructor
          · intro hc; cases hc
          · intro hc
            obtain ⟨b, hb, _⟩ := hc.1
            rw [h] at hb; cases hb
      | some b =>
          by_cases hq : q ≤ 0
          · simp only [can_purchase, h, if_pos hq]
            constructor
            · intro hc; cases hc
            · intro hc
              obtain ⟨b2, _, hq2, _⟩ := hc.1
              omega
          · by_cases hav : b.available_copies < q
            · simp only [can_purchase, h, if_neg hq, if_pos hav]
              constructor
              · intro hc; cases hc
              · intro hc
                obtain ⟨b2, hb2, _, hle⟩ := hc.1
                rw [h] at hb2
                cases hb2
                omega
            · simp only [can_purchase, h, if_neg hq, if_neg hav]
              rw [ih]
              constructor
              · intro hrest
                exact ⟨⟨b, h, by omega, by omega⟩, hrest⟩
              · intro hc; exact hc.2

theorem can_purchase_msg_kinds (lib : Library) (items : List (String × Int)) :
    (can_purchase lib items).1 = false →
      (∃ bid, (can_purchase lib items).2 = "Book ID not found: " ++ bid) ∨
      (can_purchase lib items).2 = "Qty must be > 0." ∨
      (∃ t, (can_purchase lib items).2 = "Not enough stock for " ++ t ++ ".") := by
  induction items with
  | nil => intro h; cases h
  | cons p rest ih =>
      obtain ⟨bid, q⟩ := p
      cases h : dictGet lib.books bid with
      | none =>
          intro _
          exact Or.inl ⟨bid, by simp [can_purchase, h]⟩
      | some b =>
          by_cases hq : q ≤ 0
          · intro _
            exact Or.inr (Or.inl (by simp [can_purchase, h, hq]))
          · by_cases hav : b.available_copies < q
            · intro _
              exact Or.inr (Or.inr ⟨b.title, by simp [can_purchase, h, hq, hav]⟩)
            · intro hfalse
              have hr : (can_purchase lib rest).1 = false := by
                simpa [can_purchase, h, hq, hav] using hfalse
              have h2 := ih hr
              simpa [can_purchase, h, hq, hav] using h2

/-! ## Invariant preservation -/

theorem bounded_mapAtKey (m : List (String × Book)) (k : String)
    (f : Book → Book) (hf : ∀ b, Bounded b → Bounded (f b))
    (h : ∀ p ∈ m, Bounded p.2) :
    ∀ p ∈ mapAtKey m k f, Bounded p.2 := by
  intro p hp
  rcases List.mem_map.mp hp with ⟨q, hq, rfl⟩
  by_cases hk : q.1 = k
  · rw [if_pos hk]
    exact hf q.2 (h q hq)
  · rw [if_neg hk]
    exact h q hq

theorem bounded_mapAtKey_at (m : List (String × Book)) (k : String)
    (hk : (m.map Prod.fst).Nodup) (b : Book) (hb : dictGet m k = some b)
    (f : Book → Book) (hfb : Bounded (f b)) (h : ∀ p ∈ m, Bounded p.2) :
    ∀ p ∈ mapAtKey m k f, Bounded p.2 := by
  intro p hp
  rcases List.mem_map.mp hp with ⟨q, hq, rfl⟩
  by_cases hqk : q.1 = k
  · rw [if_pos hqk]
    have hmem : (k, q.2) ∈ m := by
      rw [← hqk]
      simpa using hq
    have hget : dictGet m k = some q.2 := dictGet_eq_of_mem k q.2 m hk hmem
    have hqb : q.2 = b := by
      rw [hget] at hb
      exact Option.some.inj hb
    show Bounded (f q.2)
    rw [hqb]
    exact hfb
  · rw [if_neg hqk]
    exact h q hq

theorem invLib_updateLines (f : Int → Book → Book)
    (items : List (String × Int)) :
    (∀ p ∈ items, ∀ b, Bounded b → Bounded (f p.2 b)) →
    ∀ lib, InvLib lib → InvLib (updateLines f lib items) := by
  induction items with
  | nil => intro _ lib h; exact h
  | cons p rest ih =>
      intro hf lib h
      rw [updateLines_cons]
      apply ih
      · intro x hx
        exact hf x (List.mem_cons_of_mem _ hx)
      · intro x hx
        exact bounded_mapAtKey _ _ _ (hf p (List.mem_cons_self _ _)) h x hx

theorem get_or_create_user_books (lib : Library) (u : String) :
    (get_or_create_user lib u).1.books = lib.books := by
  unfold get_or_create_user
  cases dictGet lib.users u <;> rfl

theorem invLib_add_book (lib : Library) (h : InvLib lib)
    (title author book_id : String) (tc : Int) (url : Option String)
    (bs : Option (List Nat)) (mm : Option String) :
    InvLib (add_book lib title author book_id tc url bs mm).1 := by
  unfold add_book
  by_cases htc : tc ≤ 0
  · rw [if_pos htc]; exact h
  · rw [if_neg htc]
    cases hd : dictGet lib.books book_id with
    | some b0 =>
        intro p hp
        refine bounded_mapAtKey lib.books book_id
          (add_book_update title author tc url bs mm) ?_ h p hp
        intro b _
        rcases bs with _ | bl
        · unfold add_book_update
          dsimp only
          split_ifs with hu <;> (unfold Bounded; dsimp only; omega)
        · unfold add_book_update
          dsimp only
          unfold Bounded; dsimp only; omega
    | none =>
        intro p hp
        rcases List.mem_append.mp hp with hold | hnew
        · exact h p hold
        · have hps : p = (book_id,
              { title := title, author := author, book_id := book_id,
                total_copies := tc, available_copies := tc, price := 0,
                image_url := url, image_bytes := bs,
                image_mime := mm }) := List.mem_singleton.mp hnew
          rw [hps]
          unfold Bounded; dsimp only; omega

theorem invLib_set_price (lib : Library) (h : InvLib lib) (book_id : String)
    (price : ℚ) : InvLib (set_price lib book_id price).1 := by
  unfold set_price
  cases hd : dictGet lib.books book_id with
  | none => exact h
  | some b0 =>
      intro p hp
      refine bounded_mapAtKey lib.books book_id (set_price_update price)
        ?_ h p hp
      intro b hb
      exact hb

theorem invLib_add_stock (lib : Library) (h : InvLib lib) (book_id : String)
    (qty : Int) : InvLib (add_stock lib book_id qty).1 := by
  unfold add_stock
  by_cases hq : qty ≤ 0
  · rw [if_pos hq]; exact h
  · rw [if_neg hq]
    cases hd : dictGet lib.books book_id with
    | none => exact h
    | some b0 =>
        intro p hp
        refine bounded_mapAtKey lib.books book_id (add_stock_update qty)
          ?_ h p hp
        intro b hb
        obtain ⟨h1, h2⟩ := hb
        unfold add_stock_update Bounded; dsimp only; omega

theorem invLib_purchase (lib : Library) (h : InvLib lib)
    (items : List (String × Int)) : InvLib (purchase lib items).1 := by
  unfold purchase
  by_cases hc : (can_purchase lib items).1 = true
  · rw [if_pos hc]
    refine invLib_updateLines purchase_update items ?_ lib h
    intro p hp b hb
    obtain ⟨b0, _, hq, _⟩ := (can_purchase_eq_true_iff lib items).mp hc p hp
    obtain ⟨h1, h2⟩ := hb
    unfold purchase_update Bounded; dsimp only; omega
  · rw [if_neg hc]
    exact h

theorem invLib_restock (lib : Library) (h : InvLib lib)
    (items : List (String × Int)) (hq : ∀ p ∈ items, 0 ≤ p.2) :
    InvLib (restock lib items).1 := by
  unfold restock
  refine invLib_updateLines restock_update items ?_ lib h
  intro p hp b hb
  obtain ⟨h1, h2⟩ := hb
  have h3 := hq p hp
  unfold restock_update Bounded; dsimp only; omega

theorem borrow_book_books_of_available (lib : Library)
    (user_name book_id : String) (book : Book)
    (hd : dictGet lib.books book_id = some book)
    (hav : book.is_available = true) :
    (borrow_book lib user_name book_id).1.books =
      mapAtKey lib.books book_id borrow_update := by
  unfold borrow_book
  rw [hd]
  simp only [hav, Bool.not_true, Bool.false_eq_true, if_false]
  simp only [get_or_create_user_books]

theorem invLib_borrow_book (lib : Library) (h : InvLib lib)
    (hk : (lib.books.map Prod.fst).Nodup) (user_name book_id : String) :
    InvLib (borrow_book lib user_name book_id).1 := by
  cases hd : dictGet lib.books book_id with
  | none =>
      have he : (borrow_book lib user_name book_id).1 = lib := by
        unfold borrow_book; rw [hd]
      rw [he]; exact h
  | some book =>
      cases hav : book.is_available with
      | false =>
          have he : (borrow_book lib user_name book_id).1 = lib := by
            unfold borrow_book; rw [hd]; simp [hav]
          rw [he]; exact h
      | true =>
          intro p hp
          rw [borrow_book_books_of_available lib user_name book_id book hd hav]
            at hp
          refine bounded_mapAtKey_at lib.books book_id hk book hd
            borrow_update ?_ h p hp
          have hbd : Bounded book := h (book_id, book) (mem_of_dictGet _ _ _ hd)
          obtain ⟨h1, h2⟩ := hbd
          have hpos : 0 < book.available_copies := by
            unfold Book.is_available at hav
            exact of_decide_eq_true hav
          unfold borrow_update Bounded; dsimp only; omega

theorem invLib_return_book (lib : Library) (h : InvLib lib)
    (user_name book_id : String) :
    InvLib (return_book lib user_name book_id).1 := by
  unfold return_book
  cases hd : dictGet lib.books book_id with
  | none => exact h
  | some book =>
      cases hu : dictGet lib.users user_name with
      | none => exact h
      | some user =>
          cases hr : (user.return_book book_id).1 with
          | false => simp only [hr, Bool.not_false, if_true]; exact h
          | true =>
              simp only [hr, Bool.not_true, Bool.false_eq_true, if_false]
              intro p hp
              refine bounded_mapAtKey lib.books book_id return_update
                ?_ h p hp
              intro b hb
              obtain ⟨h1, h2⟩ := hb
              unfold return_update Bounded; dsimp only; omega

/-! ## Claims -/

/-- C1 (amended): on a catalog whose item ids are unique and whose items all
satisfy `0 ≤ available_copies ≤ total_copies`, the operations `add_book`,
`set_price`, `add_stock`, `purchase`, `borrow_book` and `return_book`
preserve the invariant unconditionally, and `restock` preserves it whenever
every quantity in the call is non-negative (`restock` does not validate its
quantities). -/
theorem claim_C1_invariant (lib : Library) (hinv : InvLib lib)
    (hkeys : (lib.books.map Prod.fst).Nodup) :
    (∀ t a id tc url bs mm, InvLib (add_book lib t a id tc url bs mm).1) ∧
    (∀ id pr, InvLib (set_price lib id pr).1) ∧
    (∀ id q, InvLib (add_stock lib id q).1) ∧
    (∀ items, InvLib (purchase lib items).1) ∧
    (∀ items, (∀ p ∈ items, 0 ≤ p.2) → InvLib (restock lib items).1) ∧
    (∀ u id, InvLib (borrow_book lib u id).1) ∧
    (∀ u id, InvLib (return_book lib u id).1) :=
  ⟨fun t a id tc url bs mm => invLib_add_book lib hinv t a id tc url bs mm,
   fun id pr => invLib_set_price lib hinv id pr,
   fun id q => invLib_add_stock lib hinv id q,
   fun items => invLib_purchase lib hinv items,
   fun items hq => invLib_restock lib hinv items hq,
   fun u id => invLib_borrow_book lib hinv hkeys u id,
   fun u id => invLib_return_book lib hinv u id⟩

/-- C1 witness: the preservation theorem applied to a concrete one-book
catalog, for a restock and a borrow. -/
theorem claim_C1_witness :
    InvLib (restock c1lib [(("b1"), 2)]).1 ∧
    InvLib (borrow_book c1lib ("u") ("b1")).1 :=
  ⟨(claim_C1_invariant c1lib (by decide) (by decide)).2.2.2.2.1
      [(("b1"), 2)] (by decide),
   (claim_C1_invariant c1lib (by decide) (by decide)).2.2.2.2.2.1
      ("u") ("b1")⟩

/-- C1 counterexample: the claim as stated fails, because `restock` accepts
a negative quantity and drives `available_copies` to -3 on a catalog that
satisfied the invariant. -/
theorem claim_C1_cex :
    InvLib c1lib ∧ ¬ InvLib (restock c1lib [(("b1"), -5)]).1 := by
  constructor
  · decide
  · decide

/-- C4: re-upserting an existing id with a positive total overwrites
`total_copies` (not additively) and recomputes `available_copies` as
`clamp(new_total - (old_total - old_available), 0, new_total)`. -/
theorem claim_C4_upsert (lib : Library) (book_id : String) (b : Book)
    (hb : dictGet lib.books book_id = some b) (t : Int) (ht : 0 < t)
    (title author : String) (url : Option String) (bs : Option (List Nat))
    (mm : Option String) :
    ∃ b2, dictGet (add_book lib title author book_id t url bs mm).1.books
        book_id = some b2 ∧
      b2.total_copies = t ∧
      b2.available_copies =
        max 0 (min (t - (b.total_copies - b.available_copies)) t) := by
  have hts : ¬ t ≤ 0 := by omega
  unfold add_book
  rw [if_neg hts, hb]
  refine ⟨add_book_update title author t url bs mm b, ?_, ?_, ?_⟩
  · show dictGet
        (mapAtKey lib.books book_id (add_book_update title author t url bs mm))
        book_id = _
    rw [dictGet_mapAtKey_self, hb]
    rfl
  · unfold add_book_update
    rcases bs with _ | bl
    · dsimp only
      split_ifs <;> rfl
    · rfl
  · unfold add_book_update
    rcases bs with _ | bl
    · dsimp only
      split_ifs <;> (dsimp only; omega)
    · dsimp only; omega

/-- C4 witness: the spec scenario, total 5 and available 2 re-upserted with
total 10 ends with available 7. -/
theorem claim_C4_witness :
    ∃ b2, dictGet (add_book c4lib ("T2") ("A2") ("b1") 10 none none none).1.books
        ("b1") = some b2 ∧
      b2.total_copies = 10 ∧ b2.available_copies = 7 := by
  obtain ⟨b2, h1, h2, h3⟩ := claim_C4_upsert c4lib ("b1")
    ⟨"T", "A", "b1", 5, 2, 0, none, none, none⟩ (by decide) 10 (by decide)
    ("T2") ("A2") none none none
  refine ⟨b2, h1, h2, ?_⟩
  rw [h3]
  decide

/-- C7 (amended): `set_price` fails with the not-found message and changes
nothing when the id is absent; for an existing id it stores the given price
unconditionally — negative prices included, no InvalidArgument check. -/
theorem claim_C7_set_price (lib : Library) (book_id : String) (price : ℚ) :
    (dictGet lib.books book_id = none →
        set_price lib book_id price = (lib, "Book ID not found.")) ∧
    (∀ b, dictGet lib.books book_id = some b →
        (set_price lib book_id price).2 = "Price updated." ∧
        dictGet (set_price lib book_id price).1.books book_id =
          some (set_price_update price b) ∧
        ∀ id, id ≠ book_id →
          dictGet (set_price lib book_id price).1.books id =
            dictGet lib.books id) := by
  constructor
  · intro h
    unfold set_price
    rw [h]
  · intro b hb
    refine ⟨?_, ?_, ?_⟩
    · unfold set_price
      rw [hb]
    · unfold set_price
      rw [hb]
      show dictGet (mapAtKey lib.books book_id (set_price_update price))
          book_id = some (set_price_update price b)
      rw [dictGet_mapAtKey_self, hb]
      rfl
    · intro id hid
      unfold set_price
      rw [hb]
      show dictGet (mapAtKey lib.books book_id (set_price_update price)) id =
          dictGet lib.books id
      exact dictGet_mapAtKey_ne _ _ _ _ hid

/-- C7 witness: the not-found branch and the update branch of the amended
claim at a concrete catalog. -/
theorem claim_C7_witness :
    set_price c7lib ("zz") 3 = (c7lib, "Book ID not found.") ∧
    (set_price c7lib ("b1") 3).2 = "Price updated." :=
  ⟨(claim_C7_set_price c7lib ("zz") 3).1 (by decide),
   ((claim_C7_set_price c7lib ("b1") 3).2
      ⟨"T", "A", "b1", 1, 1, 0, none, none, none⟩ (by decide)).1⟩

/-- C7 counterexample: a negative price is not rejected — the call reports
success and stores -1. -/
theorem claim_C7_cex :
    (set_price c7lib ("b1") (-1)).2 = "Price updated." ∧
    (dictGet (set_price c7lib ("b1") (-1)).1.books ("b1")).map Book.price =
      some (-1) ∧
    ((-1 : ℚ) < 0) :=
  ⟨rfl, by decide, by decide⟩

/-- C9: `load_state` returns the stored blob when it exists and parses, and
silently returns the empty structures when the file is missing or
unreadable, surfacing no error in either case. -/
theorem claim_C9_load_state :
    load_state none = { books := [], orders := [] } ∧
    load_state (some none) = { books := [], orders := [] } ∧
    ∀ s, load_state (some (some s)) = s :=
  ⟨rfl, rfl, fun _ => rfl⟩

/-- C10: `restock` always reports success; each line whose id exists gets
`available_copies` set to the old value plus the quantity, clamped at
`total_copies` (`restock_update`); a line whose id is absent is skipped
silently (the lookup stays `none`), and ids outside the call are
unchanged. -/
theorem claim_C10_restock (lib : Library) (items : List (String × Int))
    (hkeys : (items.map Prod.fst).Nodup) :
    (restock lib items).2 = "Restocked." ∧
    (∀ p ∈ items, dictGet (restock lib items).1.books p.1 =
        (dictGet lib.books p.1).map (restock_update p.2)) ∧
    (∀ p ∈ items, dictGet lib.books p.1 = none →
        dictGet (restock lib items).1.books p.1 = none) ∧
    (∀ bid, bid ∉ items.map Prod.fst →
        dictGet (restock lib items).1.books bid = dictGet lib.books bid) := by
  have hmem : ∀ p ∈ items, dictGet (restock lib items).1.books p.1 =
      (dictGet lib.books p.1).map (restock_update p.2) := by
    intro p hp
    exact dictGet_updateLines_mem restock_update items p.1 p.2 hkeys hp lib
  refine ⟨rfl, hmem, ?_, ?_⟩
  · intro p hp hnone
    rw [hmem p hp, hnone]
    rfl
  · intro bid hbid
    exact dictGet_updateLines_notin restock_update items bid hbid lib

/-- C10 witness: a concrete restock with one present id (clamped at the
total) and one absent id (skipped). -/
theorem claim_C10_witness :
    (restock c10lib [(("b1"), 9), (("zz"), 1)]).2 = "Restocked." ∧
    dictGet (restock c10lib [(("b1"), 9), (("zz"), 1)]).1.books ("b1") =
      (dictGet c10lib.books ("b1")).map (restock_update 9) ∧
    dictGet (restock c10lib [(("b1"), 9), (("zz"), 1)]).1.books ("zz") =
      none := by
  have h := claim_C10_restock c10lib [(("b1"), 9), (("zz"), 1)] (by decide)
  exact ⟨h.1, h.2.1 (("b1"), 9) (by decide),
         h.2.2.1 (("zz"), 1) (by decide) (by decide)⟩

/-- C2 (amended): `purchase` is all-or-nothing.  If some line names an
absent id, a non-positive quantity, or a quantity above the availability,
the call fails — with a not-found, an invalid-quantity, or an
insufficient-stock message — and the catalog is unchanged; otherwise every
line is decremented by its quantity and the call reports success.  (The
claim as stated names only NotFound and InsufficientStock; a non-positive
quantity is reported as the InvalidArgument message `Qty must be > 0.`.) -/
theorem claim_C2_purchase (lib : Library) (items : List (String × Int))
    (hkeys : (items.map Prod.fst).Nodup) :
    ((¬ ∀ p ∈ items, goodLine lib p) →
        (purchase lib items).1 = lib ∧ (purchase lib items).2.1 = false ∧
        ((∃ bid, (purchase lib items).2.2 = "Book ID not found: " ++ bid) ∨
         (purchase lib items).2.2 = "Qty must be > 0." ∨
         (∃ t, (purchase lib items).2.2 =
            "Not enough stock for " ++ t ++ "."))) ∧
    ((∀ p ∈ items, goodLine lib p) →
        (purchase lib items).2.1 = true ∧
        (purchase lib items).2.2 = "Purchased." ∧
        (∀ p ∈ items, ∀ b, dictGet lib.books p.1 = some b →
            dictGet (purchase lib items).1.books p.1 =
              some { b with available_copies :=
                       b.available_copies - p.2 }) ∧
        (∀ bid, bid ∉ items.map Prod.fst →
            dictGet (purchase lib items).1.books bid =
              dictGet lib.books bid)) := by
  constructor
  · intro hbad
    have hc : (can_purchase lib items).1 = false := by
      rcases Bool.eq_false_or_eq_true (can_purchase lib items).1 with h | h
      · exact absurd ((can_purchase_eq_true_iff lib items).mp h) hbad
      · exact h
    have hres : purchase lib items = (lib, false, (can_purchase lib items).2) := by
      unfold purchase
      simp [hc]
    rw [hres]
    exact ⟨rfl, rfl, can_purchase_msg_kinds lib items hc⟩
  · intro hgood
    have hc : (can_purchase lib items).1 = true :=
      (can_purchase_eq_true_iff lib items).mpr hgood
    have hres : purchase lib items =
        (updateLines purchase_update lib items, true, "Purchased.") := by
      unfold purchase
      simp [hc]
    rw [hres]
    refine ⟨rfl, rfl, ?_, ?_⟩
    · intro p hp b hb
      have hline := dictGet_updateLines_mem purchase_update items p.1 p.2
        hkeys hp lib
      show dictGet (updateLines purchase_update lib items).books p.1 = _
      rw [hline, hb]
      obtain ⟨b0, hb0, hq, hle⟩ := hgood p hp
      rw [hb] at hb0
      have hbb : b = b0 := Option.some.inj hb0
      rw [← hbb] at hle
      show some (purchase_update p.2 b) = _
      unfold purchase_update
      have hmax : max 0 (b.available_copies - p.2) =
          b.available_copies - p.2 := by omega
      rw [hmax]
    · intro bid hbid
      exact dictGet_updateLines_notin purchase_update items bid hbid lib

/-- C2 witness: the theorem applied to a concrete catalog, once with an
absent id (failure) and once with a valid line (success). -/
theorem claim_C2_witness :
    (purchase c2lib [(("zz"), 1)]).2.1 = false ∧
    (purchase c2lib [(("b1"), 2)]).2.2 = "Purchased." := by
  have hfail := (claim_C2_purchase c2lib [(("zz"), 1)] (by decide)).1
    (by decide)
  have hok := (claim_C2_purchase c2lib [(("b1"), 2)] (by decide)).2
    (by decide)
  exact ⟨hfail.2.1, hok.2.1⟩

/-- C2 counterexample: for a non-positive quantity the failure message is
the InvalidArgument one, which is neither the NotFound nor the
InsufficientStock message this catalog can produce. -/
theorem claim_C2_cex :
    purchase c2lib [(("b1"), 0)] = (c2lib, false, "Qty must be > 0.") ∧
    (purchase c2lib [(("b1"), 0)]).2.2 ≠ "Book ID not found: b1" ∧
    (purchase c2lib [(("b1"), 0)]).2.2 ≠ "Not enough stock for T." :=
  ⟨by decide, by decide, by decide⟩

/-- C3 (code bug): the Cancel (Restock) handler never checks the current
status.  Starting from a catalog with 2 of 5 copies available and a PAID
order over 3 copies: the first cancel restocks to 5; a purchase of 3 brings
availability back to 2; the second cancel of the same, already
CANCELLED (RESTOCKED), order succeeds again and restocks to 5 instead of
failing with InvalidTransition and leaving the catalog at 2. -/
theorem claim_C3_no_guard :
    ((c3s1.2)[0]?).map OrderRec.status = some ("CANCELLED (RESTOCKED)") ∧
    (dictGet c3s2.1.books ("b1")).map Book.available_copies = some 2 ∧
    (dictGet c3s3.1.books ("b1")).map Book.available_copies = some 5 ∧
    c3s3.1 ≠ c3s2.1 ∧
    ((c3s3.2)[0]?).map OrderRec.status = some ("CANCELLED (RESTOCKED)") :=
  ⟨by decide, by decide, by decide, by decide, by decide⟩

/-- C5: the confirm-order handler first attempts the reservation.  On
failure no order is appended, the catalog and ledger are unchanged and the
purchase message is surfaced; on success exactly one order is appended,
with status PENDING_PAYMENT, the cart as its line items, and the total
computed from the catalog prices at creation time. -/
theorem claim_C5_create_order (lib : Library) (orders : List OrderRec)
    (customer user_id time : String) (items : List (String × Int)) :
    ((purchase lib items).2.1 = false →
        (create_order lib orders customer user_id time items).1 = lib ∧
        (create_order lib orders customer user_id time items).2.1 = orders ∧
        (create_order lib orders customer user_id time items).2.2.1 = false ∧
        (create_order lib orders customer user_id time items).2.2.2 =
          (purchase lib items).2.2) ∧
    ((purchase lib items).2.1 = true →
        (create_order lib orders customer user_id time items).1 =
          (purchase lib items).1 ∧
        (create_order lib orders customer user_id time items).2.1 =
          orders ++ [{ order_id := "ORD-" ++ pad5 (orders.length + 1),
                       time := time, customer := customer,
                       user_id := user_id, items := items,
                       status := "PENDING_PAYMENT",
                       total_usd := order_total lib items,
                       admin_note := "" }] ∧
        (create_order lib orders customer user_id time items).2.2.1 =
          true) := by
  by_cases hc : (can_purchase lib items).1 = true
  · have hres : purchase lib items =
        (updateLines purchase_update lib items, true, "Purchased.") := by
      unfold purchase
      simp [hc]
    have hcre : create_order lib orders customer user_id time items =
        ((purchase lib items).1,
         orders ++ [{ order_id := "ORD-" ++ pad5 (orders.length + 1),
                      time := time, customer := customer,
                      user_id := user_id, items := items,
                      status := "PENDING_PAYMENT",
                      total_usd := order_total lib items,
                      admin_note := "" }],
         true, (purchase lib items).2.2) := by
      unfold create_order
      rw [hres]
      rfl
    constructor
    · intro hfalse
      rw [hres] at hfalse
      simp at hfalse
    · intro _
      rw [hcre]
      exact ⟨rfl, rfl, rfl⟩
  · have hcf : (can_purchase lib items).1 = false := by
      rcases Bool.eq_false_or_eq_true (can_purchase lib items).1 with h | h
      · exact absurd h hc
      · exact h
    have hres : purchase lib items =
        (lib, false, (can_purchase lib items).2) := by
      unfold purchase
      simp [hcf]
    have hcre : create_order lib orders customer user_id time items =
        (lib, orders, false, (can_purchase lib items).2) := by
      unfold create_order
      rw [hres]
      rfl
    constructor
    · intro _
      rw [hcre, hres]
      exact ⟨rfl, rfl, rfl, rfl⟩
    · intro htrue
      rw [hres] at htrue
      simp at htrue

/-- C5 witness: the theorem at a concrete catalog, once succeeding (one
order appended, PENDING_PAYMENT) and once failing on insufficient stock
(ledger stays empty). -/
theorem claim_C5_witness :
    (create_order c5lib [] ("alice") ("USR-00001") ("t0")
        [(("b1"), 2)]).2.1 =
      [{ order_id := "ORD-" ++ pad5 1, time := "t0", customer := "alice",
         user_id := "USR-00001", items := [(("b1"), 2)],
         status := "PENDING_PAYMENT",
         total_usd := order_total c5lib [(("b1"), 2)], admin_note := "" }] ∧
    (create_order c5lib [] ("alice") ("USR-00001") ("t0")
        [(("b1"), 9)]).2.1 = ([] : List OrderRec) := by
  have hok := (claim_C5_create_order c5lib [] ("alice") ("USR-00001") ("t0")
    [(("b1"), 2)]).2 (by decide)
  have hfail := (claim_C5_create_order c5lib [] ("alice") ("USR-00001") ("t0")
    [(("b1"), 9)]).1 (by decide)
  exact ⟨hok.2.1, hfail.2.1⟩

/-- The book round trip: for every book with a non-negative total,
`bookFromDict` applied to its `to_dict` image rebuilds it with the key as
id and the inline cover dropped. -/
theorem mapM_roundtrip (books : List (String × Book))
    (h : ∀ p ∈ books, 0 ≤ p.2.total_copies) :
    (books.map (fun p => (p.1,
        ({ title := p.2.title, author := p.2.author,
           total_copies := p.2.total_copies,
           available_copies := some p.2.available_copies,
           price := some p.2.price,
           image_url := p.2.image_url } : BookDict)))).mapM
      (fun p => (bookFromDict p.1 p.2).map (fun b => (p.1, b))) =
    some (books.map (fun p => (p.1, roundtripBook p.1 p.2))) := by
  induction books with
  | nil => rfl
  | cons p rest ih =>
      have hp : 0 ≤ p.2.total_copies := h p (List.mem_cons_self _ _)
      have hrest := ih (fun x hx => h x (List.mem_cons_of_mem _ hx))
      have hhead : bookFromDict p.1
          ({ title := p.2.title, author := p.2.author,
             total_copies := p.2.total_copies,
             available_copies := some p.2.available_copies,
             price := some p.2.price,
             image_url := p.2.image_url } : BookDict) =
          some (roundtripBook p.1 p.2) := by
        unfold bookFromDict roundtripBook
        dsimp only
        rw [if_neg (by omega)]
        rfl
      simp only [List.map_cons, List.mapM_cons, hhead, hrest]
      simp

/-- C6 (amended): saving and reloading reproduces every item field for
field except the inline cover — title, author, totals, availability, price,
external URL and the whole order list survive, while `image_bytes` and
`image_mime` come back as `none` (they are not serialized). -/
theorem claim_C6_roundtrip (lib lib0 : Library) (orders : List OrderRec)
    (h : ∀ p ∈ lib.books, 0 ≤ p.2.total_copies) :
    (load_state (some (some (save_state (to_dict lib) orders)))).orders =
      orders ∧
    load_from_dict lib0
        (load_state (some (some (save_state (to_dict lib) orders)))).books =
      some { lib0 with books := roundtripBooks lib.books } := by
  refine ⟨rfl, ?_⟩
  show load_from_dict lib0 (to_dict lib) = _
  unfold load_from_dict to_dict
  rw [mapM_roundtrip lib.books h]
  rfl

/-- C6 witness: the round trip theorem at a concrete catalog whose cover is
an external URL; the state survives field for field. -/
theorem claim_C6_witness :
    (load_state (some (some (save_state (to_dict c6wlib) [])))).orders =
      ([] : List OrderRec) ∧
    load_from_dict c6base
        (load_state (some (some (save_state (to_dict c6wlib) [])))).books =
      some { c6base with books := roundtripBooks c6wlib.books } :=
  claim_C6_roundtrip c6wlib c6base [] (by decide)

/-- C6 counterexample: an inline cover does not survive the round trip —
the reloaded book has `image_bytes = none`, so the reloaded state is not
equal to the saved one. -/
theorem claim_C6_cex :
    ((load_from_dict c6lib
        (load_state (some (some (save_state (to_dict c6lib) [])))).books).bind
      (fun l => dictGet l.books ("b1"))).map Book.image_bytes = some none ∧
    (dictGet c6lib.books ("b1")).map Book.image_bytes = some (some [7]) ∧
    load_from_dict c6lib
        (load_state (some (some (save_state (to_dict c6lib) [])))).books ≠
      some c6lib :=
  ⟨by decide, by decide, by decide⟩

/-- C8 (amended): provided a call supplies at most one cover kind, every
book keeps at most one active cover reference: on update, an upload clears
the URL and a URL clears the upload; on creation the supplied cover is
stored as given.  (A creation call supplying both kinds stores both, which
is what the counterexample shows.) -/
theorem claim_C8_cover (lib : Library) (title author book_id : String)
    (tc : Int) (url : Option String) (bs : Option (List Nat))
    (mm : Option String)
    (hin : bytesTruthy bs = false ∨ strTruthy url = false)
    (hlib : ∀ p ∈ lib.books, coverOk p.2) :
    ∀ p ∈ (add_book lib title author book_id tc url bs mm).1.books,
      coverOk p.2 := by
  unfold add_book
  by_cases htc : tc ≤ 0
  · rw [if_pos htc]
    exact hlib
  · rw [if_neg htc]
    cases hd : dictGet lib.books book_id with
    | some b0 =>
        intro p hp
        have hp2 : p ∈ mapAtKey lib.books book_id
            (add_book_update title author tc url bs mm) := hp
        rcases List.mem_map.mp hp2 with ⟨q, hq, rfl⟩
        by_cases hk : q.1 = book_id
        · rw [if_pos hk]
          show coverOk (add_book_update title author tc url bs mm q.2)
          unfold add_book_update
          rcases bs with _ | bl
          · dsimp only
            by_cases hu : strTruthy url = true
            · rw [if_pos hu]
              left
              rfl
            · rw [if_neg hu]
              exact hlib q hq
          · dsimp only
            right
            rfl
        · rw [if_neg hk]
          exact hlib q hq
    | none =>
        intro p hp
        rcases List.mem_append.mp hp with hold | hnew
        · exact hlib p hold
        · have hps := List.mem_singleton.mp hnew
          rw [hps]
          rcases hin with h1 | h1
          · left
            exact h1
          · right
            exact h1

/-- C8 witness: the amended invariant at a creation call supplying only a
URL cover on an empty catalog, instantiated at the book that call stores. -/
theorem claim_C8_witness :
    coverOk (⟨"T", "A", "b1", 1, 1, 0, some ("u"), none, none⟩ : Book) :=
  claim_C8_cover c8base ("T") ("A") ("b1") 1 (some ("u")) none none
    (by decide) (by decide)
    (("b1"), ⟨"T", "A", "b1", 1, 1, 0, some ("u"), none, none⟩) (by decide)

/-- C8 counterexample: a creation call supplying both an upload and a URL
stores both cover references at once, so the claim as stated fails. -/
theorem claim_C8_cex :
    (dictGet (add_book c8base ("T") ("A") ("b1") 1 (some ("u")) (some [7])
        (some ("image/png"))).1.books ("b1")).map
      (fun b => (b.image_url, b.image_bytes)) =
      some (some ("u"), some [7]) ∧
    ¬ ∀ p ∈ (add_book c8base ("T") ("A") ("b1") 1 (some ("u")) (some [7])
        (some ("image/png"))).1.books, coverOk p.2 :=
  ⟨by decide, by decide⟩
